import Mathlib

/-!
Shallow embedding of the LC-3 emulator in src/utools/ulc3.py: the memory and
register file, the single-instruction step function (fetch, decode, execute)
and the trap dispatcher, with each Python failure mode (assertion failure,
array value overflow, index error, value error, name error) made explicit in
an error type.  The registers live in an array("H") of ten 16-bit cells:
indices 0..7 are the general-purpose registers, index 8 (registers[-2]) is the
condition register and index 9 (registers[-1]) the program counter; they are
modelled as the three fields of the Registers structure.
-/

namespace ULC3

/-- Exceptions the emulator can raise: assertionFailed for a failed assert
statement, overflowErr for storing an out-of-range value into an array("H")
cell, indexErr for an out-of-range sequence index, valueErr for an enum or
array constructor rejecting its argument, typeErr for ord applied to an empty
string at end of input, nameErr for the module-global sys that is unbound in
any context where lc3 is reachable (the script path exits before calling lc3,
so lc3 only ever runs via import), and runtimeErr for the explicit
RuntimeError raised on an unsupported opcode. -/
inductive VMError where
  | assertionFailed
  | overflowErr
  | indexErr
  | valueErr
  | typeErr
  | nameErr
  | runtimeErr (opcode : Nat)
  deriving DecidableEq

/-- Flag.POSITIVE from the IntFlag enumeration (auto() assigns 1, 2, 4). -/
def Flag.POSITIVE : Nat := 1

/-- Flag.ZERO from the IntFlag enumeration. -/
def Flag.ZERO : Nat := 2

/-- Flag.NEGATIVE from the IntFlag enumeration. -/
def Flag.NEGATIVE : Nat := 4

/-- Translation of sign_extend: sign_bit = 1 << (bits - 1);
return (value & (sign_bit - 1)) - (value & sign_bit).  Every call site passes
a nonnegative masked field, so the argument is a Nat; the result is an Int. -/
def sign_extend (value : Nat) (bits : Nat) : Int :=
  let sign_bit : Nat := 1 <<< (bits - 1)
  ((value &&& (sign_bit - 1) : Nat) : Int) - ((value &&& sign_bit : Nat) : Int)

/-- Python bitwise and of a nonnegative integer with an arbitrary integer
(two's complement with infinitely many sign bits): for b >= 0 it is the plain
Nat and; for b < 0, b's bit pattern is the complement of -b - 1, so the result
is a minus the bits a shares with -b - 1.  The result is always nonnegative
because the left operand is. -/
def pyAnd (a : Nat) (b : Int) : Nat :=
  if 0 ≤ b then a &&& b.toNat else a - (a &&& (-b - 1).toNat)

/-- Python sequence-index resolution for a sequence of length n: an index i is
valid when -n <= i < n, a negative index addressing cell i + n. -/
def pyIndex (n : Nat) (i : Int) : Option Nat :=
  if 0 ≤ i ∧ i < (n : Int) then some i.toNat
  else if -(n : Int) ≤ i ∧ i < 0 then some (i + n).toNat
  else none

/-- Memory holds the array("H") built from zero_fill(SIZE) at construction;
list length is tracked because fromiter can change it. -/
structure Memory where
  memory : List Nat
  deriving DecidableEq

/-- Memory.SIZE = 1 << 16. -/
def Memory.SIZE : Nat := 1 <<< 16

/-- A freshly constructed Memory: 65536 zero cells. -/
def Memory.init : Memory := ⟨List.replicate Memory.SIZE 0⟩

/-- Memory.__getitem__: plain Python indexing into the cell array. -/
def Memory.getitem (m : Memory) (position : Int) : Except VMError Nat :=
  match pyIndex m.memory.length position with
  | some j => .ok (m.memory.getD j 0)
  | none => .error .indexErr

/-- Memory.__setitem__: Python indexing; array("H") rejects values outside
0..65535 with OverflowError. -/
def Memory.setitem (m : Memory) (position : Int) (value : Nat) :
    Except VMError Memory :=
  if value < 65536 then
    match pyIndex m.memory.length position with
    | some j => .ok ⟨m.memory.set j value⟩
    | none => .error .indexErr
  else .error .overflowErr

/-- Memory.fromiter: array("H", data) rejects items outside 0..65535, then the
slice assignment self.memory[start : start + len(data) - 1] = data splices the
len(data) new words over a len(data) - 1 cell slice (Python slice-assignment
semantics with clamped bounds). -/
def Memory.fromiter (m : Memory) (start_address : Nat) (data : List Nat) :
    Except VMError Memory :=
  if data.all (fun x => x < 65536) then
    let L := m.memory.length
    let i := min start_address L
    let j := min (max (start_address + data.length - 1) i) L
    .ok ⟨m.memory.take i ++ data ++ m.memory.drop j⟩
  else .error .overflowErr

/-- Big-endian byte-pair decoding done by array("H").frombytes followed by
byteswap: each pair (b0, b1) becomes the word b0 * 256 + b1. -/
def bytesToWordsBE : List Nat → List Nat
  | b0 :: b1 :: rest => (b0 * 256 + b1) :: bytesToWordsBE rest
  | _ => []

/-- Memory.frombytes: array("H").frombytes raises ValueError on an odd byte
count; otherwise decode big-endian words and delegate to fromiter. -/
def Memory.frombytes (m : Memory) (start_address : Nat) (data : List Nat) :
    Except VMError Memory :=
  if data.length % 2 = 0 then m.fromiter start_address (bytesToWordsBE data)
  else .error .valueErr

/-- Memory.fromfile: the first two bytes are the big-endian start address, the
rest is the image body passed to frombytes. -/
def Memory.fromfile (m : Memory) (fd : List Nat) : Except VMError Memory :=
  let start_address := (fd.take 2).foldl (fun a b => a * 256 + b) 0
  m.frombytes start_address (fd.drop 2)

/-- The register file: cells 0..7 of the backing array are the general-purpose
registers, cell 8 the condition register, cell 9 the program counter. -/
structure Registers where
  gpr : Fin 8 → Nat
  cond : Nat
  pc : Nat

/-- A freshly constructed register file: ten zero cells. -/
def Registers.init : Registers := ⟨fun _ => 0, 0, 0⟩

/-- A 3-bit register field: masking with 0x7 keeps the index below 8, so the
index assertion in Registers.__getitem__/__setitem__ never fires for decoded
fields. -/
def reg3 (n : Nat) : Fin 8 :=
  ⟨n &&& 7, by have h : n &&& 7 ≤ 7 := Nat.and_le_right; omega⟩

/-- Registers.update_flags: ZERO for value 0, NEGATIVE when bit 15 is set
(value >> 15 truthy), POSITIVE otherwise. -/
def Registers.update_flags (r : Registers) (register : Fin 8) : Registers :=
  let value := r.gpr register
  if value = 0 then { r with cond := Flag.ZERO }
  else if value >>> 15 ≠ 0 then { r with cond := Flag.NEGATIVE }
  else { r with cond := Flag.POSITIVE }

/-- The flag value update_flags assigns for a given stored value; used to
state theorems about the condition register. -/
def flagOf (value : Nat) : Nat :=
  if value = 0 then Flag.ZERO
  else if value >>> 15 ≠ 0 then Flag.NEGATIVE
  else Flag.POSITIVE

/-- Registers.__setitem__: assert 0 <= value < (1 << 16) ("value must be
UINT16"), store, then update_flags on the written register.  There is no
masking: an out-of-range value raises AssertionError. -/
def Registers.setitem (r : Registers) (register : Fin 8) (value : Int) :
    Except VMError Registers :=
  if 0 ≤ value ∧ value < 65536 then
    .ok (Registers.update_flags
      { r with gpr := Function.update r.gpr register value.toNat } register)
  else .error .assertionFailed

/-- The pc property setter writes registers[-1]; the backing array("H") raises
OverflowError for values outside 0..65535.  No flag update happens here. -/
def Registers.setPc (r : Registers) (value : Int) : Except VMError Registers :=
  if 0 ≤ value ∧ value < 65536 then .ok { r with pc := value.toNat }
  else .error .overflowErr

/-- The machine state threaded through one execution step: register file,
memory, remaining input characters and accumulated output text. -/
structure State where
  regs : Registers
  mem : Memory
  stdin : List Char
  stdout : String

/-- getch: one blocking read of a single character; at end of input
stdin.read(1) returns the empty string. -/
def getch (stdin : List Char) : String × List Char :=
  match stdin with
  | [] => ("", [])
  | c :: rest => (String.singleton c, rest)

/-- Python ord on the string returned by a read: defined only on a length-one
string, TypeError otherwise (in particular on the empty string at EOF). -/
def pyOrd (s : String) : Except VMError Nat :=
  match s.data with
  | [c] => .ok c.toNat
  | _ => .error .typeErr

/-- The PUTS loop: write chr(cell & 0xFF) for successive cells from start
until a zero cell; running past the end of the cell array raises IndexError.
Terminates because the position start + index grows toward the array end. -/
def lc3_puts (mem : Memory) (start index : Nat) (out : String) :
    Except VMError String :=
  if h : start + index < mem.memory.length then
    let c := mem.memory.getD (start + index) 0
    if c = 0 then .ok out
    else lc3_puts mem start (index + 1) (out.push (Char.ofNat (c &&& 0xFF)))
  else .error .indexErr
termination_by mem.memory.length - (start + index)
decreasing_by omega

/-- The PUTSP loop: like PUTS but each nonzero cell emits its low byte then
its high byte; the loop stops only at a zero cell, not at a zero byte. -/
def lc3_putsp (mem : Memory) (start index : Nat) (out : String) :
    Except VMError String :=
  if h : start + index < mem.memory.length then
    let c := mem.memory.getD (start + index) 0
    if c = 0 then .ok out
    else lc3_putsp mem start (index + 1)
      ((out.push (Char.ofNat (c &&& 0xFF))).push (Char.ofNat (c >>> 8)))
  else .error .indexErr
termination_by mem.memory.length - (start + index)
decreasing_by omega

/-- lc3_trap: TrapVector(vector) raises ValueError on an unknown vector;
GETC stores ord(getch(stdin)) & 0xFF in register 0; OUT writes through the
unbound module-global sys and raises NameError; PUTS and PUTSP run their
output loops; IN writes the prompt, reads and echoes one character, then
stores the ordinal of a second getch call in register 0; HALT and DEBUG reach
sys.exit through the unbound module-global sys. -/
def lc3_trap (vector : Nat) (s : State) : Except VMError State :=
  if vector = 0x20 then do
    let (c, stdin1) := getch s.stdin
    let code ← pyOrd c
    let regs ← s.regs.setitem 0 ((code &&& 0xFF : Nat) : Int)
    .ok { s with regs := regs, stdin := stdin1 }
  else if vector = 0x21 then .error .nameErr
  else if vector = 0x22 then do
    let out ← lc3_puts s.mem (s.regs.gpr 0) 0 s.stdout
    .ok { s with stdout := out }
  else if vector = 0x23 then do
    let out1 := s.stdout ++ "Waiting for input: "
    let (c, stdin1) := getch s.stdin
    let out2 := out1 ++ c
    let (c2, stdin2) := getch stdin1
    let code ← pyOrd c2
    let regs ← s.regs.setitem 0 ((code &&& 0xFF : Nat) : Int)
    .ok { s with regs := regs, stdin := stdin2, stdout := out2 }
  else if vector = 0x24 then do
    let out ← lc3_putsp s.mem (s.regs.gpr 0) 0 s.stdout
    .ok { s with stdout := out }
  else if vector = 0x25 then .error .nameErr
  else if vector = 0x99 then .error .nameErr
  else .error .valueErr

/-- The body of the fetch-decode-execute loop after the fetch and pc
increment: decode the top four bits and execute one instruction.  Opcodes
RTI (8) and RES (13) fall to the wildcard case raising RuntimeError; a value
above 15 would have been rejected by the OpCode constructor with ValueError.
Python ~x on a nonnegative x is -x - 1. -/
def execInstr (instruction : Nat) (s : State) : Except VMError State :=
  match instruction >>> 12 with
  | 0 =>
      let cond := (instruction >>> 9) &&& 0x7
      if cond &&& s.regs.cond ≠ 0 then do
        let pc_offset_9 := sign_extend (instruction &&& 0x1FF) 9
        let regs ← s.regs.setPc ((s.regs.pc : Int) + pc_offset_9)
        .ok { s with regs := regs }
      else .ok s
  | 1 =>
      let dr := reg3 (instruction >>> 9)
      let sr1 := reg3 (instruction >>> 6)
      if (instruction >>> 5) &&& 0x1 ≠ 0 then do
        let imm5 := sign_extend (instruction &&& 0x1F) 5
        let regs ← s.regs.setitem dr ((s.regs.gpr sr1 : Int) + imm5)
        .ok { s with regs := regs }
      else do
        let sr2 := reg3 instruction
        let regs ← s.regs.setitem dr
          ((s.regs.gpr sr1 : Int) + (s.regs.gpr sr2 : Int))
        .ok { s with regs := regs }
  | 2 => do
      let dr := reg3 (instruction >>> 9)
      let pc_offset_9 := sign_extend (instruction &&& 0x1FF) 9
      let v ← s.mem.getitem ((s.regs.pc : Int) + pc_offset_9)
      let regs ← s.regs.setitem dr v
      .ok { s with regs := regs }
  | 3 => do
      let sr := reg3 (instruction >>> 9)
      let pc_offset_9 := sign_extend (instruction &&& 0x1FF) 9
      let mem ← s.mem.setitem ((s.regs.pc : Int) + pc_offset_9) (s.regs.gpr sr)
      .ok { s with mem := mem }
  | 4 => do
      let regs1 ← s.regs.setitem 7 (s.regs.pc : Int)
      if (instruction >>> 11) &&& 0x1 ≠ 0 then do
        let pc_offset_11 := sign_extend (instruction &&& 0x7FF) 11
        let regs2 ← regs1.setPc ((regs1.pc : Int) + pc_offset_11)
        .ok { s with regs := regs2 }
      else do
        let br := reg3 (instruction >>> 6)
        let regs2 ← regs1.setPc (regs1.gpr br : Int)
        .ok { s with regs := regs2 }
  | 5 =>
      let dr := reg3 (instruction >>> 9)
      let sr1 := reg3 (instruction >>> 6)
      if (instruction >>> 5) &&& 0x1 ≠ 0 then do
        let imm5 := sign_extend (instruction &&& 0x1F) 5
        let regs ← s.regs.setitem dr ((pyAnd (s.regs.gpr sr1) imm5 : Nat) : Int)
        .ok { s with regs := regs }
      else do
        let sr2 := reg3 instruction
        let regs ← s.regs.setitem dr
          ((s.regs.gpr sr1 &&& s.regs.gpr sr2 : Nat) : Int)
        .ok { s with regs := regs }
  | 6 => do
      let dr := reg3 (instruction >>> 9)
      let br := reg3 (instruction >>> 6)
      let offset_6 := sign_extend (instruction &&& 0x3F) 6
      let v ← s.mem.getitem ((s.regs.gpr br : Int) + offset_6)
      let regs ← s.regs.setitem dr v
      .ok { s with regs := regs }
  | 7 => do
      let sr := reg3 (instruction >>> 9)
      let br := reg3 (instruction >>> 6)
      let offset_6 := sign_extend (instruction &&& 0x3F) 6
      let mem ← s.mem.setitem ((s.regs.gpr br : Int) + offset_6)
        (s.regs.gpr sr)
      .ok { s with mem := mem }
  | 8 => .error (.runtimeErr 8)
  | 9 => do
      let dr := reg3 (instruction >>> 9)
      let sr := reg3 (instruction >>> 6)
      let regs ← s.regs.setitem dr (-(s.regs.gpr sr : Int) - 1)
      .ok { s with regs := regs }
  | 10 => do
      let dr := reg3 (instruction >>> 9)
      let pc_offset_9 := sign_extend (instruction &&& 0x1FF) 9
      let address ← s.mem.getitem ((s.regs.pc : Int) + pc_offset_9)
      let v ← s.mem.getitem (address : Int)
      let regs ← s.regs.setitem dr v
      .ok { s with regs := regs }
  | 11 => do
      let sr := reg3 (instruction >>> 9)
      let pc_offset_9 := sign_extend (instruction &&& 0x1FF) 9
      let address ← s.mem.getitem ((s.regs.pc : Int) + pc_offset_9)
      let mem ← s.mem.setitem (address : Int) (s.regs.gpr sr)
      .ok { s with mem := mem }
  | 12 => do
      let br := reg3 (instruction >>> 6)
      let regs ← s.regs.setPc (s.regs.gpr br : Int)
      .ok { s with regs := regs }
  | 13 => .error (.runtimeErr 13)
  | 14 => do
      let dr := reg3 (instruction >>> 9)
      let pc_offset_9 := sign_extend (instruction &&& 0x1FF) 9
      let regs ← s.regs.setitem dr ((s.regs.pc : Int) + pc_offset_9)
      .ok { s with regs := regs }
  | 15 => do
      let regs1 ← s.regs.setitem 7 (s.regs.pc : Int)
      let vector := instruction &&& 0xFF
      lc3_trap vector { s with regs := regs1 }
  | _ => .error .valueErr

/-- One iteration of the while loop in lc3: fetch the word at pc, increment
pc (registers.pc += 1, an array("H") store), then decode and execute. -/
def step (s : State) : Except VMError State := do
  let instruction ← s.mem.getitem (s.regs.pc : Int)
  let regs ← s.regs.setPc ((s.regs.pc : Int) + 1)
  execInstr instruction { s with regs := regs }

/-- Modelled from the spec: the device registry is missing from
src/utools/ulc3.py (its Memory has no add_device and no device hook, although
tests/ulc3/test_util.py exercises one); spec section 4.1 describes a mapping
from addresses to devices, a device being a capability
"activate(memory) -> side effect on memory" with at most one device per
address. -/
structure MemoryDevices where
  cells : Memory
  devices : Nat → Option (Memory → Memory)

/-- Modelled from the spec: Memory.read first activates the device registered
at the address, if any (the hook may mutate the cells), then returns the
possibly device-updated cell value; with no registered device it returns the
raw cell value. -/
def MemoryDevices.read (m : MemoryDevices) (address : Nat) :
    Except VMError (Nat × MemoryDevices) :=
  match m.devices address with
  | some activate =>
      let cells := activate m.cells
      (cells.getitem (address : Int)).map (fun v => (v, { m with cells := cells }))
  | none => (m.cells.getitem (address : Int)).map (fun v => (v, m))

/-- State for the C1 failing input: R1 = 0xFFFF, next instruction
0x1661 = ADD R3, R1, #1. -/
def c1state : State :=
  { regs := { gpr := fun i => if i = 1 then 0xFFFF else 0,
              cond := Flag.ZERO, pc := 0 },
    mem := ⟨[0x1661, 0xF025]⟩, stdin := [], stdout := "" }

/-- State for the C2 counterexample: condition flags NEGATIVE, next
instruction 0x4800 = JSR with offset 0. -/
def c2state : State :=
  { regs := { gpr := fun _ => 0, cond := Flag.NEGATIVE, pc := 0 },
    mem := ⟨[0x4800, 0]⟩, stdin := [], stdout := "" }

/-- State for the C2 witness: condition flags NEGATIVE, next instruction
0x3201 = ST R1, offset 1. -/
def c2wit : State :=
  { regs := { gpr := fun _ => 0, cond := Flag.NEGATIVE, pc := 0 },
    mem := ⟨[0x3201, 0, 0]⟩, stdin := [], stdout := "" }

/-- The state c2wit steps to. -/
def c2wit1 : State := (step c2wit).toOption.getD c2wit

/-- Result register file of the C3 witness write. -/
def c3r : Registers :=
  (Registers.init.setitem 3 32768).toOption.getD Registers.init

/-- State for the C4 counterexample: next instruction 0x8000, opcode RTI. -/
def c4state : State :=
  { regs := Registers.init, mem := ⟨[0x8000, 0]⟩, stdin := [], stdout := "" }

/-- A 65536-cell memory whose only nonzero cell is a 7 at address 0x3005,
used to exhibit the cell shift fromiter causes above the loaded range. -/
def c6start : Memory := ⟨List.replicate 12293 0 ++ 7 :: List.replicate 53242 0⟩

/-- State for the C7 failing input: next instruction 0xF023 = TRAP IN, input
stream holding the two characters A and B. -/
def c7state : State :=
  { regs := Registers.init, mem := ⟨[0xF023, 0]⟩,
    stdin := ['A', 'B'], stdout := "" }

/-- Device for the C5 witness: activation stores 5 into cell 0. -/
def c5dev : Memory → Memory := fun mem => ⟨mem.memory.set 0 5⟩

/-- Device-carrying memory for the C5 witness: two zero cells, c5dev
registered at address 0. -/
def c5dm : MemoryDevices :=
  { cells := ⟨[0, 0]⟩,
    devices := fun n => if n = 0 then some c5dev else none }

/-- State for the C8 witness store: pc = 0, R1 = 7, program
0x3203 = ST R1, offset 3 then 0x2602 = LD R3, offset 2, both resolving to
effective address 4. -/
def c8s : State :=
  { regs := { gpr := fun i => if i = 1 then 7 else 0,
              cond := Flag.ZERO, pc := 0 },
    mem := ⟨[0x3203, 0x2602, 0, 0, 0, 0]⟩, stdin := [], stdout := "" }

/-- The state c8s steps to (the store executed). -/
def c8s1 : State := (step c8s).toOption.getD c8s

/-- The state c8s1 steps to (the load executed). -/
def c8s2 : State := (step c8s1).toOption.getD c8s1

/-- State for the C8 witness base-register store: pc = 0, R1 = 7, R4 = 4,
program 0x7303 = STR R1, R4, offset 3 then 0x6D03 = LDR R6, R4, offset 3,
both resolving to effective address 7. -/
def c8r : State :=
  { regs := { gpr := fun i => if i = 1 then 7 else if i = 4 then 4 else 0,
              cond := Flag.ZERO, pc := 0 },
    mem := ⟨[0x7303, 0x6D03, 0, 0, 0, 0, 0, 0]⟩, stdin := [], stdout := "" }

/-- The state c8r steps to. -/
def c8r1 : State := (step c8r).toOption.getD c8r

/-- The state c8r1 steps to. -/
def c8r2 : State := (step c8r1).toOption.getD c8r1

/-- State for the C8 witness indirect store: pc = 0, R1 = 7, program
0xB203 = STI R1, offset 3 then 0xA602 = LDI R3, offset 2; the pointer cell at
effective address 4 holds 6, so both operate on cell 6. -/
def c8i : State :=
  { regs := { gpr := fun i => if i = 1 then 7 else 0,
              cond := Flag.ZERO, pc := 0 },
    mem := ⟨[0xB203, 0xA602, 0, 0, 6, 0, 0]⟩, stdin := [], stdout := "" }

/-- The state c8i steps to. -/
def c8i1 : State := (step c8i).toOption.getD c8i

/-- The state c8i1 steps to. -/
def c8i2 : State := (step c8i1).toOption.getD c8i1

theorem except_bind_ok {α β : Type} {x : Except VMError α}
    {f : α → Except VMError β} {b : β} :
    (x >>= f) = .ok b ↔ ∃ a, x = .ok a ∧ f a = .ok b := by
  cases x <;> simp [Bind.bind, Except.bind]

theorem Registers.update_flags_gpr (r : Registers) (i : Fin 8) :
    (r.update_flags i).gpr = r.gpr := by
  simp only [Registers.update_flags]
  split_ifs <;> rfl

theorem Registers.update_flags_pc (r : Registers) (i : Fin 8) :
    (r.update_flags i).pc = r.pc := by
  simp only [Registers.update_flags]
  split_ifs <;> rfl

theorem Registers.update_flags_cond (r : Registers) (i : Fin 8) :
    (r.update_flags i).cond = flagOf (r.gpr i) := by
  simp only [Registers.update_flags, flagOf]
  split_ifs <;> rfl

theorem Registers.setitem_ok {r : Registers} {i : Fin 8} {v : Int}
    {r' : Registers} (h : r.setitem i v = .ok r') :
    0 ≤ v ∧ v < 65536 ∧
      r' = Registers.update_flags
        { r with gpr := Function.update r.gpr i v.toNat } i := by
  unfold Registers.setitem at h
  split_ifs at h with hc
  exact ⟨hc.1, hc.2, by injection h with h; exact h.symm⟩

theorem Registers.setitem_cond {r : Registers} {i : Fin 8} {v : Int}
    {r' : Registers} (h : r.setitem i v = .ok r') :
    r'.cond = flagOf v.toNat := by
  obtain ⟨-, -, rfl⟩ := Registers.setitem_ok h
  rw [Registers.update_flags_cond]
  simp

theorem Registers.setitem_gpr {r : Registers} {i : Fin 8} {v : Int}
    {r' : Registers} (h : r.setitem i v = .ok r') :
    r'.gpr = Function.update r.gpr i v.toNat := by
  obtain ⟨-, -, rfl⟩ := Registers.setitem_ok h
  rw [Registers.update_flags_gpr]

theorem Registers.setitem_pc {r : Registers} {i : Fin 8} {v : Int}
    {r' : Registers} (h : r.setitem i v = .ok r') : r'.pc = r.pc := by
  obtain ⟨-, -, rfl⟩ := Registers.setitem_ok h
  rw [Registers.update_flags_pc]

theorem Registers.setPc_ok {r : Registers} {v : Int} {r' : Registers}
    (h : r.setPc v = .ok r') :
    0 ≤ v ∧ v < 65536 ∧ r' = { r with pc := v.toNat } := by
  unfold Registers.setPc at h
  split_ifs at h with hc
  exact ⟨hc.1, hc.2, by injection h with h; exact h.symm⟩

theorem pyIndex_lt {n : Nat} {i : Int} {j : Nat} (h : pyIndex n i = some j) :
    j < n := by
  unfold pyIndex at h
  split_ifs at h with h1 h2 <;> simp at h <;> omega

theorem Memory.getitem_of_pyIndex {m : Memory} {p : Int} {j : Nat}
    (h : pyIndex m.memory.length p = some j) :
    m.getitem p = .ok (m.memory.getD j 0) := by
  unfold Memory.getitem
  rw [h]

theorem Memory.setitem_of_pyIndex {m : Memory} {p : Int} {j : Nat} {v : Nat}
    (hv : v < 65536) (h : pyIndex m.memory.length p = some j) :
    m.setitem p v = .ok ⟨m.memory.set j v⟩ := by
  unfold Memory.setitem
  rw [if_pos hv, h]

theorem Memory.getitem_set {m : Memory} {q : Int} {j v : Nat}
    (hq : pyIndex m.memory.length q = some j) :
    Memory.getitem ⟨m.memory.set j v⟩ q = .ok v := by
  have hlt := pyIndex_lt hq
  unfold Memory.getitem
  simp only [List.length_set, hq, List.getD_eq_getElem?_getD,
    List.getElem?_set_self hlt, Option.getD_some]

theorem step_eq_execInstr {s : State} {instr : Nat}
    (hf : s.mem.getitem (s.regs.pc : Int) = .ok instr)
    (hpc : s.regs.pc + 1 < 65536) :
    step s =
      execInstr instr { s with regs := { s.regs with pc := s.regs.pc + 1 } } := by
  have h1 : s.regs.setPc ((s.regs.pc : Int) + 1) =
      .ok { s.regs with pc := s.regs.pc + 1 } := by
    unfold Registers.setPc
    rw [if_pos (by constructor <;> omega)]
    have : ((s.regs.pc : Int) + 1).toNat = s.regs.pc + 1 := by omega
    rw [this]
  unfold step
  rw [hf, h1]
  rfl

/-- C9: for every value v below 2^16 and every width b with 1 <= b <= 16,
sign_extend applied to the low b bits of v is the two's-complement reading of
those bits: (v mod 2^b) - 2^b when bit b-1 of v is set, v mod 2^b
otherwise. -/
theorem c9_sign_extend_twos_complement (v b : Nat) (hv : v < 65536)
    (hb1 : 1 ≤ b) (hb2 : b ≤ 16) :
    sign_extend (v &&& (1 <<< b - 1)) b =
      if v.testBit (b - 1) then ((v % 2 ^ b : Nat) : Int) - 2 ^ b
      else ((v % 2 ^ b : Nat) : Int) := by
  obtain ⟨k, rfl⟩ : ∃ k, b = k + 1 := ⟨b - 1, by omega⟩
  have hmask : (1 : Nat) <<< (k + 1) - 1 = 2 ^ (k + 1) - 1 := by
    simp [Nat.shiftLeft_eq]
  rw [hmask, Nat.and_pow_two_sub_one_eq_mod]
  unfold sign_extend
  simp only [Nat.add_sub_cancel, Nat.shiftLeft_eq, one_mul]
  rw [Nat.and_pow_two_sub_one_eq_mod, Nat.and_two_pow,
    Nat.testBit_mod_two_pow]
  have hklt : (decide (k < k + 1)) = true := by simp
  rw [hklt, Bool.true_and]
  have hmod : v % 2 ^ (k + 1) % 2 ^ k = v % 2 ^ k :=
    Nat.mod_mod_of_dvd v (pow_dvd_pow 2 (by omega))
  rw [hmod]
  have hpow : (2 : Nat) ^ (k + 1) = 2 ^ k * 2 := pow_succ 2 k
  have hsplit : v % 2 ^ (k + 1) = v % 2 ^ k + 2 ^ k * (v / 2 ^ k % 2) := by
    rw [hpow]
    exact Nat.mod_mul
  have htb : v.testBit k = decide (v / 2 ^ k % 2 = 1) :=
    Nat.testBit_to_div_mod
  have hipow : (2 : Int) ^ (k + 1) = ((2 ^ (k + 1) : Nat) : Int) := by
    push_cast
    ring
  rw [hipow]
  cases hb : v.testBit k with
  | false =>
      rw [hb] at htb
      have hdm : v / 2 ^ k % 2 = 0 := by
        have h2 := of_decide_eq_false htb.symm
        omega
      rw [hdm] at hsplit
      simp only [Bool.toNat_false, Nat.zero_mul, Nat.cast_zero, sub_zero,
        Bool.false_eq_true, if_false]
      omega
  | true =>
      rw [hb] at htb
      have hdm : v / 2 ^ k % 2 = 1 := of_decide_eq_true htb.symm
      rw [hdm] at hsplit
      simp only [Bool.toNat_true, Nat.one_mul, if_true]
      omega

theorem flagOf_spec (x : Nat) (hx : x < 65536) :
    (flagOf x = Flag.ZERO ∨ flagOf x = Flag.POSITIVE ∨ flagOf x = Flag.NEGATIVE) ∧
    (flagOf x = Flag.ZERO ↔ x = 0) ∧
    (flagOf x = Flag.NEGATIVE ↔ x.testBit 15) ∧
    (flagOf x = Flag.POSITIVE ↔ (x ≠ 0 ∧ ¬ x.testBit 15)) := by
  have hshift : x >>> 15 = x / 2 ^ 15 := Nat.shiftRight_eq_div_pow x 15
  have htb : x.testBit 15 = decide (x / 2 ^ 15 % 2 = 1) :=
    Nat.testBit_to_div_mod
  have hbit : x.testBit 15 = true ↔ x >>> 15 ≠ 0 := by
    rw [htb, hshift]
    simp only [decide_eq_true_eq]
    have hp : (2 : Nat) ^ 15 = 32768 := by norm_num
    rw [hp]
    omega
  by_cases hz : x = 0
  · subst hz
    decide
  · by_cases hneg : x >>> 15 ≠ 0
    · have hval : flagOf x = Flag.NEGATIVE := by
        unfold flagOf
        rw [if_neg hz, if_pos hneg]
      have htbt : x.testBit 15 = true := hbit.mpr hneg
      rw [hval]
      unfold Flag.ZERO Flag.POSITIVE Flag.NEGATIVE
      refine ⟨Or.inr (Or.inr rfl), ?_, ?_, ?_⟩
      · constructor
        · intro hcon
          exact absurd hcon (by norm_num)
        · intro hcon
          exact absurd hcon hz
      · simp [htbt]
      · constructor
        · intro hcon
          exact absurd hcon (by norm_num)
        · intro hcon
          exact absurd htbt (by simpa using hcon.2)
    · have hval : flagOf x = Flag.POSITIVE := by
        unfold flagOf
        rw [if_neg hz, if_neg hneg]
      have htbf : x.testBit 15 = false := by
        cases hcase : x.testBit 15 with
        | false => rfl
        | true => exact absurd (hbit.mp hcase) hneg
      rw [hval]
      unfold Flag.ZERO Flag.POSITIVE Flag.NEGATIVE
      refine ⟨Or.inr (Or.inl rfl), ?_, ?_, ?_⟩
      · constructor
        · intro hcon
          exact absurd hcon (by norm_num)
        · intro hcon
          exact absurd hcon hz
      · simp [htbf]
      · simp [htbf, hz]

/-- C3: after any successful write to a general-purpose register through the
register file's set operation, the condition register holds exactly one of the
three flags and matches the stored 16-bit value: ZERO iff the stored value is
0, NEGATIVE iff its bit 15 is set, POSITIVE otherwise. -/
theorem c3_flags_match_stored_value (r : Registers) (i : Fin 8) (v : Int)
    (r' : Registers) (h : r.setitem i v = .ok r') :
    r'.gpr i = v.toNat ∧
    (r'.cond = Flag.ZERO ∨ r'.cond = Flag.POSITIVE ∨ r'.cond = Flag.NEGATIVE) ∧
    (r'.cond = Flag.ZERO ↔ v.toNat = 0) ∧
    (r'.cond = Flag.NEGATIVE ↔ v.toNat.testBit 15) ∧
    (r'.cond = Flag.POSITIVE ↔ (v.toNat ≠ 0 ∧ ¬ v.toNat.testBit 15)) := by
  have hb := Registers.setitem_ok h
  have hx : v.toNat < 65536 := by omega
  have hgpr : r'.gpr i = v.toNat := by
    rw [Registers.setitem_gpr h]
    simp
  have hcond : r'.cond = flagOf v.toNat := by
    rw [Registers.setitem_cond h]
  rw [hgpr, hcond]
  exact ⟨rfl, flagOf_spec v.toNat hx⟩

/-- Witness for C3: writing 0x8000 to register 3 of a fresh register file. -/
theorem c3_witness :
    Registers.init.setitem 3 32768 = .ok c3r ∧
    (c3r.gpr 3 = (32768 : Int).toNat ∧
     (c3r.cond = Flag.ZERO ∨ c3r.cond = Flag.POSITIVE ∨ c3r.cond = Flag.NEGATIVE) ∧
     (c3r.cond = Flag.ZERO ↔ (32768 : Int).toNat = 0) ∧
     (c3r.cond = Flag.NEGATIVE ↔ ((32768 : Int).toNat).testBit 15) ∧
     (c3r.cond = Flag.POSITIVE ↔
       ((32768 : Int).toNat ≠ 0 ∧ ¬ ((32768 : Int).toNat).testBit 15))) :=
  ⟨rfl, c3_flags_match_stored_value Registers.init 3 32768 c3r rfl⟩

/-- C10: a negative address in [-65536, 0) resolves to the cell at
address + 65536 for both memory reads and memory writes, instead of failing:
Python negative indexing makes such an address wrap mod 2^16. -/
theorem c10_negative_address_wraps (m : Memory) (a : Int)
    (hlen : m.memory.length = 65536) (h1 : -65536 ≤ a) (h2 : a < 0) :
    m.getitem a = .ok (m.memory.getD (a + 65536).toNat 0) ∧
    m.getitem a = m.getitem (a + 65536) ∧
    ∀ v : Nat, v < 65536 → m.setitem a v = m.setitem (a + 65536) v := by
  have hpy : pyIndex m.memory.length a = some (a + 65536).toNat := by
    unfold pyIndex
    rw [hlen]
    push_cast
    split_ifs with hc1 hc2
    · exfalso
      omega
    · rfl
    · exfalso
      omega
  have hpy2 : pyIndex m.memory.length (a + 65536) = some (a + 65536).toNat := by
    unfold pyIndex
    rw [hlen]
    push_cast
    split_ifs with hc1 hc2
    · rfl
    · exfalso
      omega
    · exfalso
      omega
  refine ⟨Memory.getitem_of_pyIndex hpy, ?_, ?_⟩
  · rw [Memory.getitem_of_pyIndex hpy, Memory.getitem_of_pyIndex hpy2]
  · intro v hv
    rw [Memory.setitem_of_pyIndex hv hpy, Memory.setitem_of_pyIndex hv hpy2]

/-- Witness for C10 at address -1 on a fresh memory. -/
theorem c10_witness :
    Memory.init.memory.length = 65536 ∧ (-65536 : Int) ≤ -1 ∧ (-1 : Int) < 0 ∧
    (Memory.init.getitem (-1) =
        .ok (Memory.init.memory.getD ((-1 : Int) + 65536).toNat 0) ∧
     Memory.init.getitem (-1) = Memory.init.getitem ((-1) + 65536) ∧
     ∀ v : Nat, v < 65536 →
       Memory.init.setitem (-1) v = Memory.init.setitem ((-1) + 65536) v) := by
  have hlen : Memory.init.memory.length = 65536 := by
    simp only [Memory.init, Memory.SIZE, List.length_replicate]
    decide
  exact ⟨hlen, by decide, by decide,
    c10_negative_address_wraps Memory.init (-1) hlen (by decide) (by decide)⟩

/-- C1: evaluating the step function at the failing input of the claim — ADD
immediate with R1 = 0xFFFF and imm5 = 1 — raises the "value must be UINT16"
assertion instead of storing 0 and setting flag ZERO: register stores are not
masked to 16 bits, so an out-of-range intermediate result is an error. -/
theorem c1_add_overflow_raises : step c1state = .error .assertionFailed := rfl

/-- C4 counterexample: executing an instruction whose opcode field is RTI
(0b1000) is not a no-op — it raises RuntimeError naming the opcode, and
execution does not continue. -/
theorem c4_rti_raises : step c4state = .error (.runtimeErr 8) := rfl

/-- C4 amended: executing an instruction whose opcode field is RTI (0b1000)
or RES (0b1101) raises a RuntimeError naming the unsupported opcode; it
leaves no successor state. -/
theorem c4_amended_unsupported_opcode_fatal (s : State) (instr : Nat)
    (hf : s.mem.getitem (s.regs.pc : Int) = .ok instr)
    (hop : instr >>> 12 = 8 ∨ instr >>> 12 = 13)
    (hpc : s.regs.pc + 1 < 65536) :
    step s = .error (.runtimeErr (instr >>> 12)) := by
  rw [step_eq_execInstr hf hpc]
  rcases hop with h | h <;> simp [execInstr, h]

/-- Witness for C4 at the concrete RTI instruction 0x8000. -/
theorem c4_witness :
    c4state.mem.getitem (c4state.regs.pc : Int) = .ok 0x8000 ∧
    ((0x8000 : Nat) >>> 12 = 8 ∨ (0x8000 : Nat) >>> 12 = 13) ∧
    c4state.regs.pc + 1 < 65536 ∧
    step c4state = .error (.runtimeErr ((0x8000 : Nat) >>> 12)) :=
  ⟨rfl, Or.inl (by decide), by decide,
    c4_amended_unsupported_opcode_fatal c4state 0x8000 rfl (Or.inl (by decide))
      (by decide)⟩

/-- C7: evaluating the step function at the failing input of the claim — TRAP
IN with input stream "AB" — consumes both characters, echoes only the first,
and stores the second character's low 8 bits (66, the code of B) in register
0, where the claim says exactly one character is consumed and its own low 8
bits (65) are stored. -/
theorem c7_in_consumes_two_characters :
    (step c7state).map (fun s => (s.regs.gpr 0, s.stdin, s.stdout)) =
      .ok (66, ([] : List Char), "Waiting for input: A") := rfl

theorem Memory.fromiter_ok (m : Memory) (start_address : Nat)
    (data : List Nat) (hd : data.all (fun x => x < 65536) = true) :
    m.fromiter start_address data =
      .ok ⟨m.memory.take (min start_address m.memory.length) ++ data ++
           m.memory.drop (min (max (start_address + data.length - 1)
             (min start_address m.memory.length)) m.memory.length)⟩ := by
  unfold Memory.fromiter
  rw [if_pos hd]

theorem getD_replicate_of_lt {n j v : Nat} (h : j < n) :
    (List.replicate n v).getD j 0 = v := by
  rw [List.getD_eq_getElem?_getD, List.getElem?_replicate, if_pos h,
    Option.getD_some]

/-- C6: evaluating the loader at the failing input of the claim — loading the
three words 1, 2, 3 at 0x3000 — grows the fixed 65536-word memory to 65537
words, and shifts every cell from start + n - 1 upward by one place (the 7
originally at 0x3005 in c6start moves to 0x3006 and 0x3005 reads 0), where
the claim says cells outside the loaded range are unchanged and the size
stays 65536. -/
theorem c6_fromiter_grows_and_shifts :
    (Memory.init.fromiter 0x3000 [1, 2, 3]).map (fun m => m.memory.length) =
      .ok 65537 ∧
    (c6start.fromiter 0x3000 [1, 2, 3]).map
      (fun m => (m.memory.length, m.memory.getD 0x3000 0,
                 m.memory.getD 0x3005 0, m.memory.getD 0x3006 0)) =
      .ok (65537, 1, 0, 7) := by
  constructor
  · have hinit : Memory.init = ⟨List.replicate 65536 0⟩ := rfl
    rw [hinit, Memory.fromiter_ok _ _ _ (by decide)]
    simp only [Except.map]
    rw [List.take_replicate, List.drop_replicate, List.length_append,
      List.length_append, List.length_replicate, List.length_replicate,
      List.length_replicate]
    norm_num
  · have hA : c6start.memory =
        List.replicate 12293 0 ++ 7 :: List.replicate 53242 0 := rfl
    have hdl : ([1, 2, 3] : List Nat).length = 3 := rfl
    have hlen6 : c6start.memory.length = 65536 := by
      rw [hA, List.length_append, List.length_cons, List.length_replicate,
        List.length_replicate]
    have hsub1 : c6start.memory.take (min 0x3000 c6start.memory.length) =
        List.replicate 12288 0 := by
      rw [hlen6, (by norm_num : min 0x3000 65536 = 12288), hA,
        List.take_append_of_le_length (by rw [List.length_replicate]; omega),
        List.take_replicate, (by norm_num : (12288 ⊓ 12293 : Nat) = 12288)]
    have hsub2 : c6start.memory.drop
        (min (max (0x3000 + ([1, 2, 3] : List Nat).length - 1)
          (min 0x3000 c6start.memory.length)) c6start.memory.length) =
        List.replicate 3 0 ++ 7 :: List.replicate 53242 0 := by
      rw [hlen6, hdl, (by norm_num : min 0x3000 65536 = 12288),
        (by norm_num : max (0x3000 + 3 - 1) 12288 = 12290),
        (by norm_num : min 12290 65536 = 12290), hA,
        List.drop_append_of_le_length (by rw [List.length_replicate]; omega),
        List.drop_replicate, (by norm_num : (12293 - 12290 : Nat) = 3)]
    have hres : c6start.fromiter 0x3000 [1, 2, 3] =
        .ok ⟨List.replicate 12288 0 ++ [1, 2, 3] ++
             (List.replicate 3 0 ++ 7 :: List.replicate 53242 0)⟩ := by
      rw [Memory.fromiter_ok _ _ _ (by decide), hsub1, hsub2]
    have hlenAB : (List.replicate 12288 (0 : Nat) ++ [1, 2, 3]).length =
        12291 := by
      rw [List.length_append, List.length_replicate, hdl]
    have hlenR : (List.replicate 12288 (0 : Nat) ++ [1, 2, 3] ++
        (List.replicate 3 0 ++ 7 :: List.replicate 53242 0)).length =
        65537 := by
      rw [List.length_append, hlenAB, List.length_append, List.length_cons,
        List.length_replicate, List.length_replicate]
    have hg0 : (List.replicate 12288 (0 : Nat) ++ [1, 2, 3] ++
        (List.replicate 3 0 ++ 7 :: List.replicate 53242 0)).getD 0x3000 0 =
        1 := by
      rw [List.getD_append _ _ _ _ (by rw [hlenAB]; omega),
        List.getD_append_right _ _ _ _ (by rw [List.length_replicate]),
        List.length_replicate, (by norm_num : (0x3000 - 12288 : Nat) = 0),
        List.getD_cons_zero]
    have hg5 : (List.replicate 12288 (0 : Nat) ++ [1, 2, 3] ++
        (List.replicate 3 0 ++ 7 :: List.replicate 53242 0)).getD 0x3005 0 =
        0 := by
      rw [List.getD_append_right _ _ _ _ (by rw [hlenAB]; omega), hlenAB,
        (by norm_num : (0x3005 - 12291 : Nat) = 2),
        List.getD_append _ _ _ _ (by rw [List.length_replicate]; omega)]
      exact getD_replicate_of_lt (by omega)
    have hg6 : (List.replicate 12288 (0 : Nat) ++ [1, 2, 3] ++
        (List.replicate 3 0 ++ 7 :: List.replicate 53242 0)).getD 0x3006 0 =
        7 := by
      rw [List.getD_append_right _ _ _ _ (by rw [hlenAB]; omega), hlenAB,
        (by norm_num : (0x3006 - 12291 : Nat) = 3),
        List.getD_append_right _ _ _ _ (by rw [List.length_replicate]),
        List.length_replicate, (by norm_num : (3 - 3 : Nat) = 0),
        List.getD_cons_zero]
    rw [hres]
    simp only [Except.map]
    rw [hlenR, hg0, hg5, hg6]

/-- Witness for C9 at v = 40000, b = 16. -/
theorem c9_witness :
    40000 < 65536 ∧ 1 ≤ 16 ∧ 16 ≤ 16 ∧
      sign_extend (40000 &&& (1 <<< 16 - 1)) 16 =
        if Nat.testBit 40000 (16 - 1) then ((40000 % 2 ^ 16 : Nat) : Int) - 2 ^ 16
        else ((40000 % 2 ^ 16 : Nat) : Int) :=
  ⟨by decide, by decide, by decide,
    c9_sign_extend_twos_complement 40000 16 (by decide) (by decide) (by decide)⟩

theorem except_ok_bind {α β : Type} (a : α) (f : α → Except VMError β) :
    ((Except.ok a : Except VMError α) >>= f) = f a := rfl

/-- C5: a read at an address with a registered device activates the device
hook exactly once before the value is taken — the returned value is the cell
value of the once-activated cells and the resulting memory holds exactly
those cells; a read at an address with no registered device returns the raw
cell value and leaves the memory unchanged. -/
theorem c5_device_read_activates_once (m : MemoryDevices) (address : Nat) :
    (∀ f j, m.devices address = some f →
      pyIndex (f m.cells).memory.length (address : Int) = some j →
      m.read address =
        .ok ((f m.cells).memory.getD j 0,
          { cells := f m.cells, devices := m.devices })) ∧
    (∀ j, m.devices address = none →
      pyIndex m.cells.memory.length (address : Int) = some j →
      m.read address = .ok (m.cells.memory.getD j 0, m)) := by
  constructor
  · intro f j hdev hj
    simp only [MemoryDevices.read, hdev, Memory.getitem_of_pyIndex hj,
      Except.map]
  · intro j hdev hj
    simp only [MemoryDevices.read, hdev, Memory.getitem_of_pyIndex hj,
      Except.map]

/-- Witness for C5: the device c5dev registered at address 0 of c5dm (its
activation writes 5 into cell 0, and that 5 is the value returned), and the
device-free address 1. -/
theorem c5_witness :
    (c5dm.devices 0 = some c5dev ∧
     pyIndex (c5dev c5dm.cells).memory.length ((0 : Nat) : Int) = some 0 ∧
     c5dm.read 0 = .ok ((c5dev c5dm.cells).memory.getD 0 0,
       { cells := c5dev c5dm.cells, devices := c5dm.devices }) ∧
     (c5dev c5dm.cells).memory.getD 0 0 = 5) ∧
    (c5dm.devices 1 = none ∧
     pyIndex c5dm.cells.memory.length ((1 : Nat) : Int) = some 1 ∧
     c5dm.read 1 = .ok (c5dm.cells.memory.getD 1 0, c5dm)) :=
  ⟨⟨rfl, rfl, (c5_device_read_activates_once c5dm 0).1 c5dev 0 rfl rfl, rfl⟩,
   ⟨rfl, rfl, (c5_device_read_activates_once c5dm 1).2 1 rfl rfl⟩⟩

/-- C2 counterexample: a JSR step does not leave the condition flags
untouched — from flags NEGATIVE it ends with flags POSITIVE, because the
return address written to R7 goes through the flag-updating register
write. -/
theorem c2_jsr_changes_flags :
    c2state.regs.cond = Flag.NEGATIVE ∧
    (step c2state).map (fun s => s.regs.cond) = .ok Flag.POSITIVE :=
  ⟨rfl, rfl⟩

theorem lc3_trap_getc (s : State) :
    lc3_trap 0x20 s =
      (pyOrd (getch s.stdin).1 >>= fun code =>
        s.regs.setitem 0 ((code &&& 0xFF : Nat) : Int) >>= fun regs =>
          .ok { s with regs := regs, stdin := (getch s.stdin).2 }) := rfl

theorem lc3_trap_puts (s : State) :
    lc3_trap 0x22 s =
      (lc3_puts s.mem (s.regs.gpr 0) 0 s.stdout >>= fun out =>
        .ok { s with stdout := out }) := rfl

theorem lc3_trap_in (s : State) :
    lc3_trap 0x23 s =
      (pyOrd (getch (getch s.stdin).2).1 >>= fun code =>
        s.regs.setitem 0 ((code &&& 0xFF : Nat) : Int) >>= fun regs =>
          .ok { s with
                regs := regs
                stdin := (getch (getch s.stdin).2).2
                stdout := s.stdout ++ "Waiting for input: " ++ (getch s.stdin).1 }) := rfl

theorem lc3_trap_putsp (s : State) :
    lc3_trap 0x24 s =
      (lc3_putsp s.mem (s.regs.gpr 0) 0 s.stdout >>= fun out =>
        .ok { s with stdout := out }) := rfl

/-- C2 amended: ST, STI, STR, BR, and JMP leave the condition-flag register
unchanged; JSR and TRAP write the post-increment pc to R7 through the
flag-updating register write, so after a JSR step the flags are those of the
return address, and after a completed TRAP step they are those of the return
address for vectors PUTS and PUTSP, or of the byte stored into R0 for
vectors GETC and IN. -/
theorem c2_amended_flag_effects (s : State) (instr : Nat) (s' : State)
    (hf : s.mem.getitem (s.regs.pc : Int) = .ok instr)
    (hs : step s = .ok s') :
    ((instr >>> 12 = 0 ∨ instr >>> 12 = 3 ∨ instr >>> 12 = 7 ∨
      instr >>> 12 = 11 ∨ instr >>> 12 = 12) → s'.regs.cond = s.regs.cond) ∧
    (instr >>> 12 = 4 → s'.regs.cond = flagOf (s.regs.pc + 1)) ∧
    (instr >>> 12 = 15 →
      ((instr &&& 0xFF = 0x22 ∨ instr &&& 0xFF = 0x24) →
        s'.regs.cond = flagOf (s.regs.pc + 1)) ∧
      ((instr &&& 0xFF = 0x20 ∨ instr &&& 0xFF = 0x23) →
        s'.regs.cond = flagOf (s'.regs.gpr 0))) := by
  unfold step at hs
  rw [hf, except_ok_bind] at hs
  rw [except_bind_ok] at hs
  obtain ⟨regs1, hsetpc, hexec⟩ := hs
  obtain ⟨-, hlt, rfl⟩ := Registers.setPc_ok hsetpc
  have htn : ((s.regs.pc : Int) + 1).toNat = s.regs.pc + 1 := by omega
  rw [htn] at hexec
  refine ⟨?_, ?_, ?_⟩
  · rintro (hop | hop | hop | hop | hop) <;>
      simp only [execInstr, hop] at hexec
    · -- BR
      split_ifs at hexec with hc
      · rw [except_bind_ok] at hexec
        obtain ⟨regs2, hset, heq⟩ := hexec
        obtain ⟨-, -, rfl⟩ := Registers.setPc_ok hset
        rw [Except.ok.injEq] at heq
        subst heq
        rfl
      · rw [Except.ok.injEq] at hexec
        subst hexec
        rfl
    · -- ST
      rw [except_bind_ok] at hexec
      obtain ⟨mem2, -, heq⟩ := hexec
      rw [Except.ok.injEq] at heq
      subst heq
      rfl
    · -- STR
      rw [except_bind_ok] at hexec
      obtain ⟨mem2, -, heq⟩ := hexec
      rw [Except.ok.injEq] at heq
      subst heq
      rfl
    · -- STI
      rw [except_bind_ok] at hexec
      obtain ⟨address, -, hexec2⟩ := hexec
      rw [except_bind_ok] at hexec2
      obtain ⟨mem2, -, heq⟩ := hexec2
      rw [Except.ok.injEq] at heq
      subst heq
      rfl
    · -- JMP
      rw [except_bind_ok] at hexec
      obtain ⟨regs2, hset, heq⟩ := hexec
      obtain ⟨-, -, rfl⟩ := Registers.setPc_ok hset
      rw [Except.ok.injEq] at heq
      subst heq
      rfl
  · -- JSR
    intro hop
    simp only [execInstr, hop] at hexec
    rw [except_bind_ok] at hexec
    obtain ⟨regs1, hset7, hrest⟩ := hexec
    have hcond1 := Registers.setitem_cond hset7
    split_ifs at hrest with hb
    · rw [except_bind_ok] at hrest
      obtain ⟨regs2, hset, heq⟩ := hrest
      obtain ⟨-, -, rfl⟩ := Registers.setPc_ok hset
      rw [Except.ok.injEq] at heq
      subst heq
      exact hcond1
    · rw [except_bind_ok] at hrest
      obtain ⟨regs2, hset, heq⟩ := hrest
      obtain ⟨-, -, rfl⟩ := Registers.setPc_ok hset
      rw [Except.ok.injEq] at heq
      subst heq
      exact hcond1
  · -- TRAP
    intro hop
    simp only [execInstr, hop] at hexec
    rw [except_bind_ok] at hexec
    obtain ⟨regs1, hset7, htrap⟩ := hexec
    have hcond1 := Registers.setitem_cond hset7
    constructor
    · rintro (hv | hv)
      · rw [hv, lc3_trap_puts] at htrap
        rw [except_bind_ok] at htrap
        obtain ⟨out, -, heq⟩ := htrap
        rw [Except.ok.injEq] at heq
        subst heq
        exact hcond1
      · rw [hv, lc3_trap_putsp] at htrap
        rw [except_bind_ok] at htrap
        obtain ⟨out, -, heq⟩ := htrap
        rw [Except.ok.injEq] at heq
        subst heq
        exact hcond1
    · rintro (hv | hv)
      · rw [hv, lc3_trap_getc] at htrap
        rw [except_bind_ok] at htrap
        obtain ⟨code, -, htrap2⟩ := htrap
        rw [except_bind_ok] at htrap2
        obtain ⟨regs2, hset0, heq⟩ := htrap2
        rw [Except.ok.injEq] at heq
        subst heq
        show regs2.cond = flagOf (regs2.gpr 0)
        rw [Registers.setitem_cond hset0, Registers.setitem_gpr hset0,
          Function.update_same]
      · rw [hv, lc3_trap_in] at htrap
        rw [except_bind_ok] at htrap
        obtain ⟨code, -, htrap2⟩ := htrap
        rw [except_bind_ok] at htrap2
        obtain ⟨regs2, hset0, heq⟩ := htrap2
        rw [Except.ok.injEq] at heq
        subst heq
        show regs2.cond = flagOf (regs2.gpr 0)
        rw [Registers.setitem_cond hset0, Registers.setitem_gpr hset0,
          Function.update_same]

/-- Witness for C2: an ST step from c2wit, whose flags are preserved. -/
theorem c2_amended_witness :
    c2wit.mem.getitem (c2wit.regs.pc : Int) = .ok 0x3201 ∧
    step c2wit = .ok c2wit1 ∧
    ((0x3201 : Nat) >>> 12 = 0 ∨ (0x3201 : Nat) >>> 12 = 3 ∨
     (0x3201 : Nat) >>> 12 = 7 ∨ (0x3201 : Nat) >>> 12 = 11 ∨
     (0x3201 : Nat) >>> 12 = 12) ∧
    c2wit1.regs.cond = c2wit.regs.cond :=
  ⟨rfl, rfl, Or.inr (Or.inl (by decide)),
    (c2_amended_flag_effects c2wit 0x3201 c2wit1 rfl rfl).1
      (Or.inr (Or.inl (by decide)))⟩

theorem toNat_natCast_eq (n : Nat) : ((n : Nat) : Int).toNat = n := by omega

theorem Registers.setitem_ok_of (r : Registers) (i : Fin 8) (v : Int)
    (h0 : 0 ≤ v) (h1 : v < 65536) :
    r.setitem i v =
      .ok (Registers.update_flags
        { r with gpr := Function.update r.gpr i v.toNat } i) := by
  unfold Registers.setitem
  rw [if_pos ⟨h0, h1⟩]

/-- C8: store/load round trips through the same effective address return the
stored register value unchanged, with every pc-relative effective address
computed from the post-increment program counter: ST then LD (post-increment
pc plus sign-extended 9-bit offset), STR then LDR (base register plus
sign-extended 6-bit offset), and STI then LDI (indirect through the cell at
the pc-relative address). -/
theorem c8_store_load_roundtrip :
    (∀ (s : State) (iST j : Nat),
      s.mem.getitem (s.regs.pc : Int) = .ok iST →
      iST >>> 12 = 3 →
      s.regs.pc + 1 < 65536 →
      pyIndex s.mem.memory.length
        (((s.regs.pc + 1 : Nat) : Int) + sign_extend (iST &&& 0x1FF) 9) =
        some j →
      s.regs.gpr (reg3 (iST >>> 9)) < 65536 →
      ∃ s1, step s = .ok s1 ∧
        s1.mem.memory.getD j 0 = s.regs.gpr (reg3 (iST >>> 9)) ∧
        ∀ (s2 : State) (iLD : Nat),
          s2.mem = s1.mem →
          s2.mem.getitem (s2.regs.pc : Int) = .ok iLD →
          iLD >>> 12 = 2 →
          s2.regs.pc + 1 < 65536 →
          pyIndex s2.mem.memory.length
            (((s2.regs.pc + 1 : Nat) : Int) +
              sign_extend (iLD &&& 0x1FF) 9) = some j →
          ∃ s3, step s2 = .ok s3 ∧
            s3.regs.gpr (reg3 (iLD >>> 9)) =
              s.regs.gpr (reg3 (iST >>> 9))) ∧
    (∀ (s : State) (iSTR j : Nat),
      s.mem.getitem (s.regs.pc : Int) = .ok iSTR →
      iSTR >>> 12 = 7 →
      s.regs.pc + 1 < 65536 →
      pyIndex s.mem.memory.length
        ((s.regs.gpr (reg3 (iSTR >>> 6)) : Int) +
          sign_extend (iSTR &&& 0x3F) 6) = some j →
      s.regs.gpr (reg3 (iSTR >>> 9)) < 65536 →
      ∃ s1, step s = .ok s1 ∧
        s1.mem.memory.getD j 0 = s.regs.gpr (reg3 (iSTR >>> 9)) ∧
        ∀ (s2 : State) (iLDR : Nat),
          s2.mem = s1.mem →
          s2.mem.getitem (s2.regs.pc : Int) = .ok iLDR →
          iLDR >>> 12 = 6 →
          s2.regs.pc + 1 < 65536 →
          pyIndex s2.mem.memory.length
            ((s2.regs.gpr (reg3 (iLDR >>> 6)) : Int) +
              sign_extend (iLDR &&& 0x3F) 6) = some j →
          ∃ s3, step s2 = .ok s3 ∧
            s3.regs.gpr (reg3 (iLDR >>> 9)) =
              s.regs.gpr (reg3 (iSTR >>> 9))) ∧
    (∀ (s : State) (iSTI p j : Nat),
      s.mem.getitem (s.regs.pc : Int) = .ok iSTI →
      iSTI >>> 12 = 11 →
      s.regs.pc + 1 < 65536 →
      s.mem.getitem
        (((s.regs.pc + 1 : Nat) : Int) + sign_extend (iSTI &&& 0x1FF) 9) =
        .ok p →
      pyIndex s.mem.memory.length ((p : Nat) : Int) = some j →
      s.regs.gpr (reg3 (iSTI >>> 9)) < 65536 →
      ∃ s1, step s = .ok s1 ∧
        s1.mem.memory.getD j 0 = s.regs.gpr (reg3 (iSTI >>> 9)) ∧
        ∀ (s2 : State) (iLDI p2 : Nat),
          s2.mem = s1.mem →
          s2.mem.getitem (s2.regs.pc : Int) = .ok iLDI →
          iLDI >>> 12 = 10 →
          s2.regs.pc + 1 < 65536 →
          s2.mem.getitem
            (((s2.regs.pc + 1 : Nat) : Int) +
              sign_extend (iLDI &&& 0x1FF) 9) = .ok p2 →
          pyIndex s2.mem.memory.length ((p2 : Nat) : Int) = some j →
          ∃ s3, step s2 = .ok s3 ∧
            s3.regs.gpr (reg3 (iLDI >>> 9)) =
              s.regs.gpr (reg3 (iSTI >>> 9))) := by
  refine ⟨?_, ?_, ?_⟩
  · intro s iST j hf hop hpc hj hx
    have hset := Memory.setitem_of_pyIndex hx hj
    rw [step_eq_execInstr hf hpc]
    simp only [execInstr, hop]
    rw [hset, except_ok_bind]
    refine ⟨_, rfl, ?_, ?_⟩
    · show (s.mem.memory.set j (s.regs.gpr (reg3 (iST >>> 9)))).getD j 0 = _
      rw [List.getD_eq_getElem?_getD, List.getElem?_set_self (pyIndex_lt hj),
        Option.getD_some]
    · intro s2 iLD hmem hf2 hop2 hpc2 hj2
      have hmem' : s2.mem =
          ⟨s.mem.memory.set j (s.regs.gpr (reg3 (iST >>> 9)))⟩ := hmem
      have hj2' : pyIndex s.mem.memory.length
          (((s2.regs.pc + 1 : Nat) : Int) + sign_extend (iLD &&& 0x1FF) 9) =
          some j := by
        rw [hmem'] at hj2
        rw [← List.length_set s.mem.memory j (s.regs.gpr (reg3 (iST >>> 9)))]
        exact hj2
      have hget : s2.mem.getitem
          (((s2.regs.pc + 1 : Nat) : Int) + sign_extend (iLD &&& 0x1FF) 9) =
          .ok (s.regs.gpr (reg3 (iST >>> 9))) := by
        rw [hmem']
        exact Memory.getitem_set hj2'
      rw [step_eq_execInstr hf2 hpc2]
      simp only [execInstr, hop2]
      rw [hget, except_ok_bind,
        Registers.setitem_ok_of _ _ _ (Int.natCast_nonneg _)
          (by exact_mod_cast hx),
        except_ok_bind]
      refine ⟨_, rfl, ?_⟩
      show (Registers.update_flags _ _).gpr _ = _
      simp only [Registers.update_flags_gpr, Function.update_same,
        toNat_natCast_eq]
  · intro s iSTR j hf hop hpc hj hx
    have hset := Memory.setitem_of_pyIndex hx hj
    rw [step_eq_execInstr hf hpc]
    simp only [execInstr, hop]
    rw [hset, except_ok_bind]
    refine ⟨_, rfl, ?_, ?_⟩
    · show (s.mem.memory.set j (s.regs.gpr (reg3 (iSTR >>> 9)))).getD j 0 = _
      rw [List.getD_eq_getElem?_getD, List.getElem?_set_self (pyIndex_lt hj),
        Option.getD_some]
    · intro s2 iLDR hmem hf2 hop2 hpc2 hj2
      have hmem' : s2.mem =
          ⟨s.mem.memory.set j (s.regs.gpr (reg3 (iSTR >>> 9)))⟩ := hmem
      have hj2' : pyIndex s.mem.memory.length
          ((s2.regs.gpr (reg3 (iLDR >>> 6)) : Int) +
            sign_extend (iLDR &&& 0x3F) 6) = some j := by
        rw [hmem'] at hj2
        rw [← List.length_set s.mem.memory j (s.regs.gpr (reg3 (iSTR >>> 9)))]
        exact hj2
      have hget : s2.mem.getitem
          ((s2.regs.gpr (reg3 (iLDR >>> 6)) : Int) +
            sign_extend (iLDR &&& 0x3F) 6) =
          .ok (s.regs.gpr (reg3 (iSTR >>> 9))) := by
        rw [hmem']
        exact Memory.getitem_set hj2'
      rw [step_eq_execInstr hf2 hpc2]
      simp only [execInstr, hop2]
      rw [hget, except_ok_bind,
        Registers.setitem_ok_of _ _ _ (Int.natCast_nonneg _)
          (by exact_mod_cast hx),
        except_ok_bind]
      refine ⟨_, rfl, ?_⟩
      show (Registers.update_flags _ _).gpr _ = _
      simp only [Registers.update_flags_gpr, Function.update_same,
        toNat_natCast_eq]
  · intro s iSTI p j hf hop hpc hptr hj hx
    have hset := Memory.setitem_of_pyIndex hx hj
    rw [step_eq_execInstr hf hpc]
    simp only [execInstr, hop]
    rw [hptr, except_ok_bind, hset, except_ok_bind]
    refine ⟨_, rfl, ?_, ?_⟩
    · show (s.mem.memory.set j (s.regs.gpr (reg3 (iSTI >>> 9)))).getD j 0 = _
      rw [List.getD_eq_getElem?_getD, List.getElem?_set_self (pyIndex_lt hj),
        Option.getD_some]
    · intro s2 iLDI p2 hmem hf2 hop2 hpc2 hptr2 hj2
      have hmem' : s2.mem =
          ⟨s.mem.memory.set j (s.regs.gpr (reg3 (iSTI >>> 9)))⟩ := hmem
      have hj2' : pyIndex s.mem.memory.length ((p2 : Nat) : Int) = some j := by
        rw [hmem'] at hj2
        rw [← List.length_set s.mem.memory j (s.regs.gpr (reg3 (iSTI >>> 9)))]
        exact hj2
      have hget : s2.mem.getitem ((p2 : Nat) : Int) =
          .ok (s.regs.gpr (reg3 (iSTI >>> 9))) := by
        rw [hmem']
        exact Memory.getitem_set hj2'
      rw [step_eq_execInstr hf2 hpc2]
      simp only [execInstr, hop2]
      rw [hptr2, except_ok_bind, hget, except_ok_bind,
        Registers.setitem_ok_of _ _ _ (Int.natCast_nonneg _)
          (by exact_mod_cast hx),
        except_ok_bind]
      refine ⟨_, rfl, ?_⟩
      show (Registers.update_flags _ _).gpr _ = _
      simp only [Registers.update_flags_gpr, Function.update_same,
        toNat_natCast_eq]

/-- Witness for C8: the concrete programs of c8s (ST then LD via effective
address 4), c8r (STR then LDR via effective address 7) and c8i (STI then LDI
indirect through the pointer cell at effective address 4), each recovering
the stored value 7. -/
theorem c8_witness :
    c8s2.regs.gpr (reg3 ((0x2602 : Nat) >>> 9)) =
      c8s.regs.gpr (reg3 ((0x3203 : Nat) >>> 9)) ∧
    c8r2.regs.gpr (reg3 ((0x6D03 : Nat) >>> 9)) =
      c8r.regs.gpr (reg3 ((0x7303 : Nat) >>> 9)) ∧
    c8i2.regs.gpr (reg3 ((0xA602 : Nat) >>> 9)) =
      c8i.regs.gpr (reg3 ((0xB203 : Nat) >>> 9)) := by
  refine ⟨?_, ?_, ?_⟩
  · obtain ⟨s1, hs1, hcell, hnext⟩ :=
      c8_store_load_roundtrip.1 c8s 0x3203 4 rfl (by decide) (by decide)
        (by decide) (by decide)
    have he1 : s1 = c8s1 := (Except.ok.inj hs1).symm
    obtain ⟨s3, hs3, hval⟩ :=
      hnext c8s1 0x2602 (by rw [he1]) rfl (by decide) (by decide) (by decide)
    have he3 : c8s2 = s3 := Except.ok.inj hs3
    rw [he3]
    exact hval
  · obtain ⟨s1, hs1, hcell, hnext⟩ :=
      c8_store_load_roundtrip.2.1 c8r 0x7303 7 rfl (by decide) (by decide)
        (by decide) (by decide)
    have he1 : s1 = c8r1 := (Except.ok.inj hs1).symm
    obtain ⟨s3, hs3, hval⟩ :=
      hnext c8r1 0x6D03 (by rw [he1]) rfl (by decide) (by decide) (by decide)
    have he3 : c8r2 = s3 := Except.ok.inj hs3
    rw [he3]
    exact hval
  · obtain ⟨s1, hs1, hcell, hnext⟩ :=
      c8_store_load_roundtrip.2.2 c8i 0xB203 6 6 rfl (by decide) (by decide)
        rfl (by decide) (by decide)
    have he1 : s1 = c8i1 := (Except.ok.inj hs1).symm
    obtain ⟨s3, hs3, hval⟩ :=
      hnext c8i1 0xA602 6 (by rw [he1]) rfl (by decide) (by decide) rfl
        (by decide)
    have he3 : c8i2 = s3 := Except.ok.inj hs3
    rw [he3]
    exact hval

end ULC3
